import Mathlib

/-
  Verification development for the FlightDataUtilities velocity-speed lookup
  engine and the discrete state-mapping normalisation.

  The velocity-speed implementation itself (the VelocitySpeed interface of the
  aircrafttables package) is not part of the available sources; only its unit
  tests are.  Its data model and operations are therefore modelled from the
  specification (sections 3, 4.1 to 4.4, 6, 7), with rational numbers standing
  for the floating point values and Option for elementwise-missing ("masked")
  values.  The state-mapping functions are translated directly from
  flightdatautilities/state_mappings.py.
-/

namespace FDUtil

/-! Units and conversion (spec section 4.4 and 6). -/

/-- Modelled from the spec: the unit name constants of the external units
service (flightdatautilities.units is not among the sources).  Supported mass
units form the closed set kg, lb, tonne. -/
def UNIT_KG : String := "kg"

/-- Modelled from the spec: the pound unit name of the external units service. -/
def UNIT_LB : String := "lb"

/-- Modelled from the spec: the tonne unit name of the external units service. -/
def UNIT_TONNE : String := "t"

/-- Modelled from the spec: size of one unit in kilograms, for the closed
enumerated set of supported mass units; none for any other unit.
One pound is exactly 0.45359237 kg. -/
def unitInKg (u : String) : Option ℚ :=
  if u == UNIT_KG then some 1
  else if u == UNIT_LB then some (45359237 / 100000000)
  else if u == UNIT_TONNE then some 1000
  else none

/-- Modelled from the spec: the consumed collaborator
convert(value, from_unit, to_unit), supporting kilogram, pound and tonne and
failing (none, standing for UnsupportedUnitError) on any other unit. -/
def convert (v : ℚ) (fromUnit toUnit : String) : Option ℚ :=
  match unitInKg fromUnit, unitInKg toUnit with
  | some a, some b => some (v * a / b)
  | _, _ => none

/-- Modelled from the spec: the configured weight unit is acceptable when it is
one of kg, lb, tonne, or not set at all (spec section 7). -/
def unitSupported : Option String → Bool
  | none => true
  | some u => (unitInKg u).isSome

/-! Generic string-keyed dictionary lookup over association lists. -/

/-- Lookup in an association list keyed by strings (first match). -/
def dictGet {α : Type} (l : List (String × α)) (k : String) : Option α :=
  (l.find? (fun p => p.1 == k)).map Prod.snd

/-! Breakpoint interpolator (spec section 4.1). -/

/-- Modelled from the spec: the breakpoint interpolator over a table of
(breakpoint, value) pairs with ascending breakpoints.  Missing (none) below the
first or above the last breakpoint; linear interpolation on a bracketing
segment; right-continuous at repeated breakpoints (a query equal to a repeated
breakpoint takes the upper segment); a one-point table yields its value only on
exact match. -/
def interp1 : List (ℚ × ℚ) → ℚ → Option ℚ
  | [], _ => none
  | [(x0, y0)], x => if x = x0 then some y0 else none
  | (x0, y0) :: (x1, y1) :: rest, x =>
      if x < x0 then none
      else if x < x1 then some (y0 + (y1 - y0) * (x - x0) / (x1 - x0))
      else interp1 ((x1, y1) :: rest) x

/-! Data model (spec section 3). -/

/-- Modelled from the spec: the weight-banded speed kinds. -/
inductive VSKind where
  | v2
  | vref
  | vapp
  deriving DecidableEq

/-- Modelled from the spec: the altitude-banded speed kinds. -/
inductive AltKind where
  | vmo
  | mmo
  deriving DecidableEq

/-- Modelled from the spec: an altitude-banded table is undefined, a fixed
numeric constant, or an altitude breakpoint series. -/
inductive AltTable where
  | undefined
  | fixed (c : ℚ)
  | series (tbl : List (ℚ × ℚ))
  deriving DecidableEq

/-- Modelled from the spec: the VelocitySpeed table set (the implementation
class is absent from the sources).  Weight-banded tables map a configuration
detent to a (weight, speed) breakpoint series; fallback maps a detent to a
single constant; altitude tables are a closed variant per kind. -/
structure VelocitySpeed where
  weight_unit : Option String
  weight_scale : ℚ
  minimum_speed : Option ℚ
  tables : VSKind → Option (List (String × List (ℚ × ℚ)))
  fallback : VSKind → List (String × ℚ)
  alt_tables : AltKind → AltTable

/-! Missing-aware inputs and results (spec sections 2 and 4.2). -/

/-- Modelled from the spec: a query weight or altitude argument, either
omitted, a single (possibly missing) scalar, or an elementwise-missing-aware
array. -/
inductive MaskedInput where
  | omitted
  | scalar (w : Option ℚ)
  | array (ws : List (Option ℚ))
  deriving DecidableEq

/-- Modelled from the spec: a missing-aware result shaped like the input. -/
inductive MaskedResult where
  | scalar (v : Option ℚ)
  | array (vs : List (Option ℚ))
  deriving DecidableEq

/-- Modelled from the spec: the element list of an input; an omitted weight is
treated as a fully missing input of output shape one. -/
def elementsOf : MaskedInput → List (Option ℚ)
  | .omitted => [none]
  | .scalar w => [w]
  | .array ws => ws

/-- Modelled from the spec: shape the elementwise results like the input
(scalar in, scalar out; array in, same-length array out). -/
def reshape (inp : MaskedInput) (vs : List (Option ℚ)) : MaskedResult :=
  match inp with
  | .array _ => .array vs
  | _ => .scalar (vs.headD none)

/-- Modelled from the spec: whether the argument holds any numeric value, so
that an explicit numeric unit conversion would be required. -/
def hasNumeric : MaskedInput → Bool
  | .omitted => false
  | .scalar w => w.isSome
  | .array ws => ws.any Option.isSome

/-- Modelled from the spec: whether the weight argument is entirely missing
(omitted, a missing scalar, or an array whose every element is missing). -/
def inputFullyMissing : MaskedInput → Bool
  | .omitted => true
  | .scalar w => w.isNone
  | .array ws => ws.all Option.isNone

/-! Weight-banded lookup (spec section 4.2). -/

/-- Modelled from the spec: the eager unit error of the weight-banded lookup. -/
inductive VSError where
  | unsupportedUnit
  deriving DecidableEq

/-- Modelled from the spec: normalise a supplied weight (expressed in
kilograms) into the table's declared unit and scale.  Only evaluated after the
configured unit has been validated; the zero default of the impossible branch
is never reached on validated configurations. -/
def normaliseWeight (cfg : VelocitySpeed) (w : ℚ) : ℚ :=
  match cfg.weight_unit with
  | some u =>
      match convert w UNIT_KG u with
      | some v => v / cfg.weight_scale
      | none => 0
  | none => w / cfg.weight_scale

/-- Modelled from the spec: the minimum-speed floor applied to a non-missing
output value when configured. -/
def applyMinimum (ms : Option ℚ) (y : ℚ) : ℚ :=
  match ms with
  | some m => max y m
  | none => y

/-- Modelled from the spec: the weight-banded lookup contract of section 4.2
(the implementation is absent from the sources).  Steps: eager unit validation
whenever a numeric weight is supplied; weight normalisation; interpolation
against the detent's table; the fully-missing special case broadcasting the
fallback constant over the input shape; universal fallback when no table entry
exists; missing everywhere when neither source exists; elementwise
minimum-speed floor on non-missing values.  One deviation from the
specification text: the spec prescribes per-element fallback substitution
wherever an interpolated element is missing, but the repository's unit tests
(test__v2, test__v2__out_of_range) assert that masked or out-of-range elements
stay missing whenever a table entry is used on a not-entirely-missing weight,
so the model follows the tests: the fallback constant is used only for an
entirely missing weight argument or an absent table entry. -/
def vspeedLookup (cfg : VelocitySpeed) (kind : VSKind) (detent : String)
    (weight : MaskedInput) : Except VSError MaskedResult :=
  if hasNumeric weight && !(unitSupported cfg.weight_unit) then
    Except.error VSError.unsupportedUnit
  else
    let fb : Option ℚ := dictGet (cfg.fallback kind) detent
    let ws : List (Option ℚ) := elementsOf weight
    let ws' : List (Option ℚ) := ws.map (Option.map (normaliseWeight cfg))
    let raw : List (Option ℚ) :=
      match (cfg.tables kind).bind (fun t => dictGet t detent) with
      | some tbl =>
          if inputFullyMissing weight then
            match fb with
            | some c => ws.map (fun _ => some c)
            | none => ws.map (fun _ => none)
          else
            ws'.map (fun w => Option.bind w (interp1 tbl))
      | none => ws.map (fun _ => fb)
    Except.ok (reshape weight (raw.map (Option.map (applyMinimum cfg.minimum_speed))))

/-! Altitude-banded lookup (spec section 4.3). -/

/-- Modelled from the spec: altitude lookup over the closed table variant; no
fallback tier and no minimum-speed floor exist on this path.  One deviation
from the specification text: the spec prescribes that the fixed-constant
branch produce missing output at missing input positions, but the
repository's unit tests (test__vmo__fixed, test__mmo__fixed) mask one altitude
element and still expect the constant with mask False at every position, so
the model follows the tests: a fixed constant is broadcast unmasked over the
input shape, whatever the input's missingness. -/
def altLookup (cfg : VelocitySpeed) (kind : AltKind) (altitude : MaskedInput) :
    MaskedResult :=
  let xs := elementsOf altitude
  let vs : List (Option ℚ) :=
    match cfg.alt_tables kind with
    | .undefined => xs.map (fun _ => none)
    | .fixed c => xs.map (fun _ => some c)
    | .series tbl => xs.map (fun x => Option.bind x (interp1 tbl))
  reshape altitude vs

/-- Modelled from the spec: the public v2 operation. -/
def VelocitySpeed.v2 (cfg : VelocitySpeed) (detent : String) (weight : MaskedInput) :
    Except VSError MaskedResult :=
  vspeedLookup cfg VSKind.v2 detent weight

/-- Modelled from the spec: the public vref operation. -/
def VelocitySpeed.vref (cfg : VelocitySpeed) (detent : String) (weight : MaskedInput) :
    Except VSError MaskedResult :=
  vspeedLookup cfg VSKind.vref detent weight

/-- Modelled from the spec: the public vapp operation. -/
def VelocitySpeed.vapp (cfg : VelocitySpeed) (detent : String) (weight : MaskedInput) :
    Except VSError MaskedResult :=
  vspeedLookup cfg VSKind.vapp detent weight

/-- Modelled from the spec: the public vmo operation. -/
def VelocitySpeed.vmo (cfg : VelocitySpeed) (altitude : MaskedInput) : MaskedResult :=
  altLookup cfg AltKind.vmo altitude

/-- Modelled from the spec: the public mmo operation. -/
def VelocitySpeed.mmo (cfg : VelocitySpeed) (altitude : MaskedInput) : MaskedResult :=
  altLookup cfg AltKind.mmo altitude

/-- Map a function over every non-missing element of a result. -/
def MaskedResult.emap (f : ℚ → ℚ) : MaskedResult → MaskedResult
  | .scalar v => .scalar (v.map f)
  | .array vs => .array (vs.map (Option.map f))

/-- Decidable equality of lookup outcomes, for concrete evaluations. -/
instance {ε α : Type} [DecidableEq ε] [DecidableEq α] : DecidableEq (Except ε α) :=
  fun x y =>
    match x, y with
    | .ok a, .ok b =>
        if h : a = b then isTrue (by rw [h])
        else isFalse (by intro hh; cases hh; exact h rfl)
    | .error a, .error b =>
        if h : a = b then isTrue (by rw [h])
        else isFalse (by intro hh; cases hh; exact h rfl)
    | .ok _, .error _ => isFalse (by intro hh; cases hh)
    | .error _, .ok _ => isFalse (by intro hh; cases hh)

/-- Extract the value of a successful scalar result. -/
def scalarValue : Except VSError MaskedResult → Option ℚ
  | .ok (.scalar v) => v
  | _ => none

/-- Two lookups both produced scalar values within eps of each other. -/
def closeScalars (r1 r2 : Except VSError MaskedResult) (eps : ℚ) : Bool :=
  match scalarValue r1, scalarValue r2 with
  | some a, some b => decide (|a - b| ≤ eps)
  | _, _ => false

/-! Concrete table set of the unit tests
    (tests/aircrafttables/velocity_speed_test.py, TestVelocitySpeed.setUp). -/

/-- Weight breakpoints of the test tables, in tonnes. -/
def testWeights : List ℚ := [100, 110, 120, 130, 140, 150, 160, 170, 180, 190]

/-- Pair the test weight axis with a speed row. -/
def mkRow (ys : List ℚ) : List (ℚ × ℚ) := testWeights.zip ys

/-- The v2 table of the test setUp. -/
def testV2Tables : List (String × List (ℚ × ℚ)) :=
  [("5", mkRow [127, 134, 139, 145, 151, 156, 161, 166, 171, 176]),
   ("15", mkRow [122, 128, 134, 139, 144, 149, 154, 159, 164, 168]),
   ("20", mkRow [118, 124, 129, 134, 140, 144, 149, 154, 159, 164])]

/-- The vref table of the test setUp. -/
def testVrefTables : List (String × List (ℚ × ℚ)) :=
  [("5", mkRow [114, 121, 128, 134, 141, 147, 153, 158, 164, 169]),
   ("15", mkRow [109, 116, 122, 129, 131, 135, 146, 151, 157, 162]),
   ("20", mkRow [105, 111, 118, 124, 130, 135, 141, 147, 152, 158])]

/-- The vapp table of the test setUp (identical rows to vref). -/
def testVappTables : List (String × List (ℚ × ℚ)) := testVrefTables

/-- The table set of the test setUp: tonnes, scale 1, no minimum speed, the
three weight tables above, a vmo breakpoint series and a fixed mmo of 0.800. -/
def testVS : VelocitySpeed :=
  { weight_unit := some UNIT_TONNE
    weight_scale := 1
    minimum_speed := none
    tables := fun k =>
      match k with
      | .v2 => some testV2Tables
      | .vref => some testVrefTables
      | .vapp => some testVappTables
    fallback := fun k =>
      match k with
      | .v2 => [("5", 122), ("15", 117), ("20", 113)]
      | .vref => [("5", 109), ("15", 104), ("20", 100)]
      | .vapp => [("5", 109), ("15", 104), ("20", 100)]
    alt_tables := fun k =>
      match k with
      | .vmo => .series [(0, 335), (12000, 335), (29000, 310), (41000, 310)]
      | .mmo => .fixed (4 / 5) }

/-- The stepped vmo table of the vmo stepped test. -/
def steppedAltVS : VelocitySpeed :=
  { testVS with alt_tables := fun k =>
      match k with
      | .vmo => .series [(0, 350), (20000, 350), (20000, 300), (40000, 300)]
      | .mmo => testVS.alt_tables .mmo }

/-- The linear vmo table of the vmo interpolated test. -/
def interpAltVS : VelocitySpeed :=
  { testVS with alt_tables := fun k =>
      match k with
      | .vmo => .series [(0, 350), (20000, 330), (40000, 310)]
      | .mmo => testVS.alt_tables .mmo }

/-- The fixed-constant vmo/mmo tables of the fixed tests (vmo 350, mmo 0.850). -/
def fixedAltVS : VelocitySpeed :=
  { testVS with alt_tables := fun k =>
      match k with
      | .vmo => .fixed 350
      | .mmo => .fixed (17 / 20) }

/-- The configuration of the weight-scale test: the same numeric tables read as
thousands of pounds. -/
def lbVS : VelocitySpeed :=
  { testVS with weight_unit := some UNIT_LB, weight_scale := 1000 }

/-- The configuration of the minimum-speed test. -/
def minSpeedVS : VelocitySpeed :=
  { testVS with minimum_speed := some 125 }

/-- A configuration whose weight unit is outside the supported set. -/
def badUnitVS : VelocitySpeed :=
  { testVS with weight_unit := some "fortnight" }

/-! State mappings, translated from flightdatautilities/state_mappings.py.
    The Python dict literal of PARAMETER_CORRECTIONS contains duplicated keys;
    as Python evaluates the literal, a later duplicate overwrites the earlier
    value while the key keeps its first position.  The list below is that
    evaluated dictionary: every duplicate carried the same value except
    Eng (star) Bleed, whose final value drops the 0 entry. -/

/-- PARAMETER_CORRECTIONS from state_mappings.py: replacement state mappings
keyed by parameter name or wildcard pattern. -/
def PARAMETER_CORRECTIONS : List (String × List (Nat × String)) :=
  [("Alpha Floor", [(1, "Engaged")]),
   ("Alternate Law", [(1, "Engaged")]),
   ("Altitude Capture Mode", [(1, "Activated")]),
   ("Altitude Mode", [(1, "Activated")]),
   ("AP (*) Engaged", [(1, "Engaged")]),
   ("APU (*) On", [(1, "On")]),
   ("APU Bleed Valve Open", [(1, "Open")]),
   ("APU Fire", [(1, "Fire")]),
   ("AT Active", [(1, "Activated")]),
   ("Autobrake Selected RTO", [(1, "Selected")]),
   ("Cabin Altitude Warning", [(1, "Warning")]),
   ("Climb Mode Active", [(1, "Activated")]),
   ("Direct Law", [(1, "Engaged")]),
   ("ECS Pack (*) High Flow", [(1, "High"), (0, "Low")]),
   ("ECS Pack (*) On", [(1, "On")]),
   ("Eng (*) Anti Ice", [(1, "On")]),
   ("Eng (*) Bleed", [(1, "Open")]),
   ("Eng (*) Fire", [(1, "Fire")]),
   ("Eng (*) Thrust Reverser Deployed", [(1, "Deployed")]),
   ("Eng (*) Thrust Reverser In Transit", [(1, "In Transit")]),
   ("Eng (*) Thrust Reverser Unlocked", [(1, "Unlocked")]),
   ("Eng (*) Fire (1L)", [(1, "Fire")]),
   ("Eng (*) Fire (1R)", [(1, "Fire")]),
   ("Eng (*) Fire (2L)", [(1, "Fire")]),
   ("Eng (*) Fire (2R)", [(1, "Fire")]),
   ("Eng (*) Oil Press Low", [(1, "Low Press")]),
   ("Eng (*) Thrust Reverser (L) Deployed", [(1, "Deployed")]),
   ("Eng (*) Thrust Reverser (L) Unlocked", [(1, "Unlocked")]),
   ("Eng (*) Thrust Reverser (R) Deployed", [(1, "Deployed")]),
   ("Eng (*) Thrust Reverser (R) Unlocked", [(1, "Unlocked")]),
   ("Event Marker (*)", [(1, "Event")]),
   ("Event Marker (Capt)", [(1, "Event")]),
   ("Event Marker (FO)", [(1, "Event")]),
   ("Event Marker", [(1, "Event")]),
   ("Expedite Climb Mode", [(1, "Activated")]),
   ("Expedite Descent Mode", [(1, "Activated")]),
   ("Fire APU Single Bottle System", [(1, "Fire")]),
   ("Fire APU Dual Bottle System", [(1, "Fire")]),
   ("Flap Alternate Armed", [(1, "Armed")]),
   ("Flap Load Relief", [(0, "Normal"), (1, "Load Relief")]),
   ("Flare Mode", [(1, "Engaged")]),
   ("Fuel Qty (L) Low", [(1, "Warning")]),
   ("Fuel Qty (R) Low", [(1, "Warning")]),
   ("Fuel Qty Low", [(1, "Warning")]),
   ("Gear (*) Down", [(1, "Down"), (0, "Up")]),
   ("Gear (*) In Air", [(1, "Air"), (0, "Ground")]),
   ("Gear (*) On Ground", [(1, "Ground"), (0, "Air")]),
   ("Gear (*) Red Warning", [(1, "Warning")]),
   ("Gear (L) Down", [(1, "Down"), (0, "Up")]),
   ("Gear (L) In Transit", [(1, "In Transit")]),
   ("Gear (L) On Ground", [(1, "Ground"), (0, "Air")]),
   ("Gear (L) Red Warning", [(1, "Warning")]),
   ("Gear (L) Up", [(1, "Up"), (0, "Down")]),
   ("Gear (N) Down", [(1, "Down"), (0, "Up")]),
   ("Gear (N) In Transit", [(1, "In Transit")]),
   ("Gear (N) Red Warning", [(1, "Warning")]),
   ("Gear (N) Up", [(1, "Up"), (0, "Down")]),
   ("Gear (R) Down", [(1, "Down"), (0, "Up")]),
   ("Gear (R) In Transit", [(1, "In Transit")]),
   ("Gear (R) On Ground", [(1, "Ground"), (0, "Air")]),
   ("Gear (R) Red Warning", [(1, "Warning")]),
   ("Gear (R) Up", [(1, "Up"), (0, "Down")]),
   ("Gear Down Selected", [(1, "Down"), (0, "Up")]),
   ("Gear Down", [(1, "Down"), (0, "Up")]),
   ("Gear In Air", [(1, "Air"), (0, "Ground")]),
   ("Gear In Transit", [(1, "In Transit")]),
   ("Gear On Ground", [(1, "Ground"), (0, "Air")]),
   ("Gear Up Selected", [(1, "Up"), (0, "Down")]),
   ("Gear Up", [(1, "Up")]),
   ("Heading Mode Active", [(1, "Activated")]),
   ("ILS Glideslope Capture Active", [(1, "Activated")]),
   ("ILS Inner Marker", [(1, "Present")]),
   ("ILS Inner Marker (Capt)", [(1, "Present")]),
   ("ILS Inner Marker (FO)", [(1, "Present")]),
   ("ILS Localizer Capture Active", [(1, "Activated")]),
   ("ILS Localizer Track Active", [(1, "Activated")]),
   ("ILS Middle Marker", [(1, "Present")]),
   ("ILS Middle Marker (Capt)", [(1, "Present")]),
   ("ILS Middle Marker (FO)", [(1, "Present")]),
   ("ILS Outer Marker", [(1, "Present")]),
   ("ILS Outer Marker (Capt)", [(1, "Present")]),
   ("ILS Outer Marker (FO)", [(1, "Present")]),
   ("Jettison Nozzle", [(1, "Jettison")]),
   ("Key HF", [(1, "Keyed")]),
   ("Key HF (*)", [(1, "Keyed")]),
   ("Key Satcom (*)", [(1, "Keyed")]),
   ("Key Satcom", [(1, "Keyed")]),
   ("Key VHF", [(1, "Keyed")]),
   ("Key VHF (*)", [(1, "Keyed")]),
   ("Key VHF (*) (Capt)", [(1, "Keyed")]),
   ("Key VHF (*) (FO)", [(1, "Keyed")]),
   ("Land Track Activated", [(1, "Activated")]),
   ("Landing Configuration Gear Warning", [(1, "Warning")]),
   ("Landing Configuration Speedbrake Caution", [(1, "Caution")]),
   ("Master Caution (Capt)", [(1, "Caution")]),
   ("Master Caution (FO)", [(1, "Caution")]),
   ("Master Caution", [(1, "Caution")]),
   ("Master Warning (Capt)", [(1, "Warning")]),
   ("Master Warning (FO)", [(1, "Warning")]),
   ("Master Warning", [(1, "Warning")]),
   ("NAV Mode Active", [(1, "Activated")]),
   ("Normal Law", [(1, "Engaged")]),
   ("Open Climb Mode", [(1, "Activated")]),
   ("Open Descent Mode", [(1, "Activated")]),
   ("Overspeed Warning", [(1, "Overspeed")]),
   ("Pitch Alternate Law (*)", [(1, "Engaged")]),
   ("Pitch Alternate Law", [(1, "Engaged")]),
   ("Pitch Direct Law", [(1, "Engaged")]),
   ("Pitch Normal Law", [(1, "Engaged")]),
   ("Roll Alternate Law", [(1, "Engaged")]),
   ("Roll Direct Law", [(1, "Engaged")]),
   ("Roll Go Around Mode Active", [(1, "Activated")]),
   ("Roll Normal Law", [(1, "Engaged")]),
   ("Runway Mode Active", [(1, "Activated")]),
   ("Slat Alternate Armed", [(1, "Armed")]),
   ("Speed Control (*) Auto", [(1, "Auto")]),
   ("Speed Control (*) Manual", [(0, "Auto")]),
   ("Speed Control Auto", [(1, "Auto")]),
   ("Speed Control Manual", [(0, "Auto")]),
   ("Speedbrake Armed", [(1, "Armed")]),
   ("Speedbrake Deployed", [(1, "Deployed")]),
   ("Spoiler (L) Deployed", [(1, "Deployed")]),
   ("Spoiler (L) Outboard Deployed", [(1, "Deployed")]),
   ("Spoiler (R) Outboard Deployed", [(1, "Deployed")]),
   ("Spoiler (R) Deployed", [(1, "Deployed")]),
   ("Stick Pusher", [(1, "Push")]),
   ("Stick Pusher (L)", [(1, "Push")]),
   ("Stick Pusher (R)", [(1, "Push")]),
   ("Stick Shaker", [(1, "Shake")]),
   ("Stick Shaker (*)", [(1, "Shake")]),
   ("Stick Shaker (L)", [(1, "Shake")]),
   ("Stick Shaker (R)", [(1, "Shake")]),
   ("Takeoff And Go Around", [(1, "TOGA")]),
   ("Takeoff Configuration Aileron Warning", [(1, "Warning")]),
   ("Takeoff Configuration AP Warning", [(1, "Warning")]),
   ("Takeoff Configuration Flap Warning", [(1, "Warning")]),
   ("Takeoff Configuration Gear Warning", [(1, "Warning")]),
   ("Takeoff Configuration Parking Brake Warning", [(1, "Warning")]),
   ("Takeoff Configuration Rudder Warning", [(1, "Warning")]),
   ("Takeoff Configuration Spoiler Warning", [(1, "Warning")]),
   ("Takeoff Configuration Stabilizer Warning", [(1, "Warning")]),
   ("Takeoff Configuration Warning", [(1, "Warning")]),
   ("TAWS (L) Dont Sink", [(1, "Warning")]),
   ("TAWS (L) Glideslope Cancel", [(1, "Cancel")]),
   ("TAWS (L) Too Low Gear", [(1, "Warning")]),
   ("TAWS (R) Dont Sink", [(1, "Warning")]),
   ("TAWS (R) Glideslope Cancel", [(1, "Cancel")]),
   ("TAWS (R) Too Low Gear", [(1, "Warning")]),
   ("TAWS Alert", [(1, "Alert")]),
   ("TAWS Caution Obstacle", [(1, "Caution")]),
   ("TAWS Caution Terrain", [(1, "Caution")]),
   ("TAWS Caution", [(1, "Caution")]),
   ("TAWS Dont Sink", [(1, "Warning")]),
   ("TAWS Failure", [(1, "Failed")]),
   ("TAWS Glideslope", [(1, "Warning")]),
   ("TAWS Glideslope Cancel", [(1, "Cancel")]),
   ("TAWS Minimums", [(1, "Minimums")]),
   ("TAWS Obstacle Warning", [(1, "Warning")]),
   ("TAWS Predictive Windshear", [(1, "Warning")]),
   ("TAWS Pull Up", [(1, "Warning")]),
   ("TAWS Sink Rate", [(1, "Warning")]),
   ("TAWS Terrain Caution", [(1, "Caution")]),
   ("TAWS Terrain Ahead Pull Up", [(1, "Warning")]),
   ("TAWS Terrain Pull Up", [(1, "Warning")]),
   ("TAWS Terrain Override", [(1, "Override")]),
   ("TAWS Terrain Warning Amber", [(1, "Warning")]),
   ("TAWS Terrain Warning Red", [(1, "Warning")]),
   ("TAWS Terrain", [(1, "Warning")]),
   ("TAWS Too Low Flap", [(1, "Warning")]),
   ("TAWS Too Low Gear", [(1, "Warning")]),
   ("TAWS Too Low Terrain", [(1, "Warning")]),
   ("TAWS Warning", [(1, "Warning")]),
   ("TAWS Windshear Caution", [(1, "Caution")]),
   ("TAWS Windshear Siren", [(1, "Siren")]),
   ("TAWS Windshear Warning", [(1, "Warning")]),
   ("TCAS (L) Failure", [(1, "Failed")]),
   ("TCAS (R) Failure", [(1, "Failed")]),
   ("TCAS Failure", [(1, "Failed")]),
   ("Thrust Mode Selected (L)", [(1, "Selected")]),
   ("Thrust Mode Selected (R)", [(1, "Selected")]),
   ("Wing Anti Ice", [(1, "On")]),
   ("Fuel Jettison Nozzle", [(1, "Disagree")]),
   ("TAWS Terrain Ahead", [(1, "Warning")]),
   ("TCAS TA", [(1, "TA")]),
   ("TCAS RA", [(1, "RA")])]

/-- STATE_CORRECTIONS from state_mappings.py: state-name replacements; the
entry for "no Fault" maps to the Python value None. -/
def STATE_CORRECTIONS : List (String × Option String) :=
  [("Not Closed", some "Open"),
   ("Down Lock", some "Down"),
   ("Openned", some "Open"),
   ("Not engaged", some "Not Engaged"),
   ("on", some "On"),
   ("off", some "Off"),
   ("Not armed", some "Not Armed"),
   ("APU Bleed Valve Fully Open", some "Open"),
   ("APU Bleed Valve not Fully Open", some "Closed"),
   ("no Fault", none),
   ("false", some "False"),
   ("true", some "True"),
   ("valid", some "Valid"),
   ("not valid", some "Invalid"),
   ("down", some "Down"),
   ("up", some "Up"),
   ("UP", some "Up"),
   ("DOWN", some "Down")]

/-- TRUE_STATES from state_mappings.py. -/
def TRUE_STATES : List String :=
  ["Engaged", "On", "CMD Mode", "CWS Mode", "Open", "FMA Displayed", "Event",
   "Asymmetrical", "Ground", "Down", "Good", "Warning", "Keyed", "Track Phase",
   "Selected", "Deployed", "Unlocked", "AC BUS 2 OFF",
   "APU Bleed Valve not Fully Open", "Not armed", "APU Fire", "Aft CG",
   "Fault", "Valid"]

/-- FALSE_STATES from state_mappings.py. -/
def FALSE_STATES : List String :=
  ["Not Engaged", "Off", "Not in CMD Mode", "Not in CWS Mode", "Closed",
   "FMA Not Displayed", "Air", "Up", "FAIL/OFF", "AC BUS 2 not OFF",
   "APU Bleed Valve Fully Open", "Armed", "No APU Fire", "No Aft CG",
   "Normal", "No Warning", "No Fault", "Invalid"]

/-- Shell-style wildcard match over character lists, as fnmatch.translate plus
an anchored regex match performs it for the patterns of PARAMETER_CORRECTIONS:
a star matches any sequence, a question mark exactly one character, every other
character itself (no pattern of the dictionary uses character classes). -/
def globMatch : List Char → List Char → Bool
  | [], s => s.isEmpty
  | '*' :: ps, [] => globMatch ps []
  | '*' :: ps, c :: cs => globMatch ps (c :: cs) || globMatch ('*' :: ps) cs
  | '?' :: _, [] => false
  | '?' :: ps, _ :: cs => globMatch ps cs
  | _ :: _, [] => false
  | p :: ps, c :: cs => p == c && globMatch ps cs
termination_by p s => p.length + s.length

/-- Whether a pattern contains the wildcard markers the source tests for. -/
def hasWildcardMarker (pat : String) : Bool :=
  decide (1 < (pat.splitOn "(*)").length) || decide (1 < (pat.splitOn "(?)").length)

/-- get_parameter_correction from state_mappings.py: exact dictionary hit
first, then the first wildcard pattern whose anchored fnmatch regex matches. -/
def get_parameter_correction (parameter_name : String) :
    Option (List (Nat × String)) :=
  match dictGet PARAMETER_CORRECTIONS parameter_name with
  | some m => some m
  | none =>
      (PARAMETER_CORRECTIONS.find? (fun p =>
        hasWildcardMarker p.1 && globMatch p.1.toList parameter_name.toList)).map
        Prod.snd

/-- The Python expression STATE_CORRECTIONS.get(s, s): the corrected state,
which the dictionary may set to None, or the state itself. -/
def stateCorrectionsGet (s : String) : Option String :=
  match dictGet STATE_CORRECTIONS s with
  | some v => v
  | none => some s

/-- Membership of a possibly-absent state name in a state list; the Python
None is a member of neither list. -/
def optMem (o : Option String) (l : List String) : Bool :=
  match o with
  | some t => l.contains t
  | none => false

/-- A discrete parameter state mapping with entries for 0 and 1. -/
structure DiscreteMapping where
  state0 : String
  state1 : String
  deriving DecidableEq

/-- normalise_discrete_mapping from state_mappings.py: corrects both states,
computes the inverted flag from the corrected original states, and returns
either the parameter-name correction (when a non-empty name yields one) or the
corrected mapping, together with the flag. -/
def normalise_discrete_mapping (original_mapping : DiscreteMapping)
    (parameter_name : Option String) :
    List (Nat × Option String) × Bool :=
  let true_state := stateCorrectionsGet original_mapping.state1
  let false_state := stateCorrectionsGet original_mapping.state0
  let inverted := optMem true_state FALSE_STATES || optMem false_state TRUE_STATES
  let pcorr : Option (List (Nat × String)) :=
    match parameter_name with
    | some n => if n.isEmpty then none else get_parameter_correction n
    | none => none
  let normalised : List (Nat × Option String) :=
    match pcorr with
    | some m =>
        if m.isEmpty then [(0, false_state), (1, true_state)]
        else m.map (fun p => (p.1, some p.2))
    | none => [(0, false_state), (1, true_state)]
  (normalised, inverted)

/-- Strict ascent of breakpoints: the sortedness relation of a non-stepped
breakpoint table. -/
def fstLT (p q : ℚ × ℚ) : Prop := Prod.fst p < Prod.fst q

instance : IsTrans (ℚ × ℚ) fstLT :=
  ⟨fun _ _ _ h1 h2 => lt_trans h1 h2⟩

instance : DecidableRel fstLT :=
  fun p q => inferInstanceAs (Decidable (Prod.fst p < Prod.fst q))

/-! Helper lemmas about the interpolator. -/

theorem interp1_cons_cons (x0 y0 x1 y1 : ℚ) (rest : List (ℚ × ℚ)) (x : ℚ) :
    interp1 ((x0, y0) :: (x1, y1) :: rest) x =
      if x < x0 then none
      else if x < x1 then some (y0 + (y1 - y0) * (x - x0) / (x1 - x0))
      else interp1 ((x1, y1) :: rest) x := rfl

theorem interp1_singleton (x0 y0 x : ℚ) :
    interp1 [(x0, y0)] x = if x = x0 then some y0 else none := rfl

/-- Scanning a table at a query strictly below a breakpoint never reaches past
that breakpoint: everything after it is irrelevant. -/
theorem interp1_below_stop (v y x : ℚ) (hx : x < v) (rest : List (ℚ × ℚ)) :
    ∀ pre : List (ℚ × ℚ),
      interp1 (pre ++ (v, y) :: rest) x = interp1 (pre ++ [(v, y)]) x := by
  intro pre
  induction pre with
  | nil =>
      cases rest with
      | nil => rfl
      | cons r rs =>
          obtain ⟨r1, r2⟩ := r
          rw [List.nil_append, List.nil_append, interp1_cons_cons, if_pos hx,
            interp1_singleton, if_neg (ne_of_lt hx)]
  | cons p pre' ih =>
      obtain ⟨p1, p2⟩ := p
      cases pre' with
      | nil =>
          simp only [List.cons_append, List.nil_append, interp1_cons_cons]
          by_cases h1 : x < p1
          · rw [if_pos h1, if_pos h1]
          · rw [if_neg h1, if_neg h1, if_pos hx, if_pos hx]
      | cons q pre'' =>
          obtain ⟨q1, q2⟩ := q
          simp only [List.cons_append, interp1_cons_cons]
          simp only [List.cons_append] at ih
          by_cases h1 : x < p1
          · rw [if_pos h1, if_pos h1]
          · rw [if_neg h1, if_neg h1]
            by_cases h2 : x < q1
            · rw [if_pos h2, if_pos h2]
            · rw [if_neg h2, if_neg h2]
              exact ih

/-- Scanning a table at a query at or above a breakpoint skips every earlier
breakpoint. -/
theorem interp1_skip_front (v y x : ℚ) (tail : List (ℚ × ℚ)) (hvx : v ≤ x) :
    ∀ pre : List (ℚ × ℚ), (∀ p ∈ pre, Prod.fst p ≤ v) →
      interp1 (pre ++ (v, y) :: tail) x = interp1 ((v, y) :: tail) x := by
  intro pre
  induction pre with
  | nil => intro _; rfl
  | cons p pre' ih =>
      intro hpre
      obtain ⟨p1, p2⟩ := p
      have hp1 : ¬ x < p1 :=
        not_lt.mpr (le_trans (hpre (p1, p2) (List.mem_cons_self _ _)) hvx)
      cases pre' with
      | nil =>
          simp only [List.cons_append, List.nil_append, interp1_cons_cons]
          rw [if_neg hp1, if_neg (not_lt.mpr hvx)]
      | cons q pre'' =>
          obtain ⟨q1, q2⟩ := q
          have hq1 : ¬ x < q1 :=
            not_lt.mpr (le_trans
              (hpre (q1, q2) (List.mem_cons_of_mem _ (List.mem_cons_self _ _))) hvx)
          simp only [List.cons_append, interp1_cons_cons]
          rw [if_neg hp1, if_neg hq1]
          have ih' := ih (fun p hp => hpre p (List.mem_cons_of_mem _ hp))
          simp only [List.cons_append] at ih'
          exact ih'

/-! Helper lemmas about the lookup pipeline. -/

@[simp] theorem optionMap_applyMinimum_none (o : Option ℚ) :
    Option.map (applyMinimum none) o = o := by
  cases o <;> rfl

theorem hasNumeric_false_of_all_none (ws : List (Option ℚ))
    (h : ws.all Option.isNone = true) : hasNumeric (MaskedInput.array ws) = false := by
  simp only [hasNumeric]
  rw [List.any_eq_false]
  intro x hx
  rw [List.all_eq_true] at h
  have := h x hx
  rw [Option.isNone_iff_eq_none] at this
  subst this
  simp

@[simp] theorem listMap_applyMinimum_none (l : List (Option ℚ)) :
    l.map (Option.map (applyMinimum none)) = l := by
  induction l with
  | nil => rfl
  | cons a l ih => simp [ih]

theorem emap_reshape (f : ℚ → ℚ) (w : MaskedInput) (l : List (Option ℚ)) :
    MaskedResult.emap f (reshape w l) = reshape w (l.map (Option.map f)) := by
  cases w with
  | array ws => rfl
  | scalar v => cases l <;> rfl
  | omitted => cases l <;> rfl

theorem unitInKg_kg : unitInKg UNIT_KG = some 1 := rfl

/-! Claim theorems. -/

unseal Rat.add Rat.sub Rat.mul Rat.inv Rat.ofScientific in
/-- C4: on a stepped table (a repeated breakpoint v carrying two values), the
interpolator is right-continuous at the duplicate: every query at or above v
is resolved by the upper segment, every query strictly below v by the table up
to the first copy of v; in particular the stepped test table gives
vmo(19999) = 350, vmo(20000) = 300 and vmo(20001) = 300. -/
theorem interp_stepped_right_continuous (pre : List (ℚ × ℚ)) (v y1 y2 : ℚ)
    (rest : List (ℚ × ℚ)) (x : ℚ) (hpre : ∀ p ∈ pre, Prod.fst p ≤ v) :
    (v ≤ x →
      interp1 (pre ++ (v, y1) :: (v, y2) :: rest) x = interp1 ((v, y2) :: rest) x)
    ∧ (x < v →
      interp1 (pre ++ (v, y1) :: (v, y2) :: rest) x = interp1 (pre ++ [(v, y1)]) x)
    ∧ steppedAltVS.vmo (MaskedInput.scalar (some 19999)) = MaskedResult.scalar (some 350)
    ∧ steppedAltVS.vmo (MaskedInput.scalar (some 20000)) = MaskedResult.scalar (some 300)
    ∧ steppedAltVS.vmo (MaskedInput.scalar (some 20001)) = MaskedResult.scalar (some 300) := by
  refine ⟨?_, ?_, by decide, by decide, by decide⟩
  · intro hvx
    rw [interp1_skip_front v y1 x ((v, y2) :: rest) hvx pre hpre]
    rw [interp1_cons_cons, if_neg (not_lt.mpr hvx), if_neg (not_lt.mpr hvx)]
  · intro hx
    exact interp1_below_stop v y1 x hx ((v, y2) :: rest) pre

unseal Rat.add Rat.sub Rat.mul Rat.inv Rat.ofScientific in
/-- C4 witness: the right-continuity part applied at the stepped test table,
at the duplicated breakpoint itself. -/
theorem interp_stepped_right_continuous_witness :
    (∀ p ∈ ([((0 : ℚ), (350 : ℚ))] : List (ℚ × ℚ)), Prod.fst p ≤ 20000)
    ∧ interp1 ([((0 : ℚ), (350 : ℚ))] ++ (20000, 350) :: (20000, 300) :: [(40000, 300)]) 20000
        = interp1 ((20000, 300) :: [(40000, 300)]) 20000 :=
  ⟨by decide,
    (interp_stepped_right_continuous [(0, 350)] 20000 350 300 [(40000, 300)] 20000
      (by decide)).1 (by norm_num)⟩

unseal Rat.add Rat.sub Rat.mul Rat.inv Rat.ofScientific in
/-- C5: on a non-stepped (strictly ascending) table, a query bracketed by
consecutive breakpoints x0 and x1 yields the linear interpolation
y0 + (y1 - y0) * (x - x0) / (x1 - x0); in particular the linear test table
gives vmo(10000) = 340. -/
theorem interp_linear_bracket (pre : List (ℚ × ℚ)) (x0 y0 x1 y1 : ℚ)
    (rest : List (ℚ × ℚ)) (x : ℚ)
    (hchain : List.Chain' fstLT (pre ++ (x0, y0) :: (x1, y1) :: rest))
    (hlo : x0 ≤ x) (hhi : x ≤ x1) :
    interp1 (pre ++ (x0, y0) :: (x1, y1) :: rest) x
      = some (y0 + (y1 - y0) * (x - x0) / (x1 - x0))
    ∧ interpAltVS.vmo (MaskedInput.scalar (some 10000)) = MaskedResult.scalar (some 340) := by
  refine ⟨?_, by decide⟩
  have hp := List.chain'_iff_pairwise.mp hchain
  rw [List.pairwise_append] at hp
  obtain ⟨-, hp2, hcross⟩ := hp
  rw [List.pairwise_cons] at hp2
  obtain ⟨hx0all, hp3⟩ := hp2
  have h01 : x0 < x1 := hx0all (x1, y1) (List.mem_cons_self _ _)
  have hpre : ∀ p ∈ pre, Prod.fst p ≤ x0 :=
    fun p hp' => le_of_lt (hcross p hp' (x0, y0) (List.mem_cons_self _ _))
  rw [interp1_skip_front x0 y0 x ((x1, y1) :: rest) hlo pre hpre]
  rw [interp1_cons_cons, if_neg (not_lt.mpr hlo)]
  rcases lt_or_eq_of_le hhi with hlt | heq
  · rw [if_pos hlt]
  · have hne : x1 - x0 ≠ 0 := sub_ne_zero.mpr (ne_of_gt h01)
    have hval : y0 + (y1 - y0) * (x - x0) / (x1 - x0) = y1 := by
      rw [heq, mul_div_assoc, div_self hne, mul_one]
      ring
    rw [hval, if_neg (by rw [heq]; exact lt_irrefl x1)]
    rw [List.pairwise_cons] at hp3
    obtain ⟨hx1all, -⟩ := hp3
    cases rest with
    | nil => rw [interp1_singleton, if_pos heq]
    | cons r rs =>
        obtain ⟨r1, r2⟩ := r
        have h1r : x1 < r1 := hx1all (r1, r2) (List.mem_cons_self _ _)
        rw [interp1_cons_cons, if_neg (by rw [heq]; exact lt_irrefl x1),
          if_pos (by rw [heq]; exact h1r)]
        rw [heq, sub_self, mul_zero, zero_div, add_zero]

unseal Rat.add Rat.sub Rat.mul Rat.inv Rat.ofScientific in
/-- C5 witness: the bracketing part applied at the linear test table, at the
midpoint of its first segment. -/
theorem interp_linear_bracket_witness :
    List.Chain' fstLT ([] ++ ((0 : ℚ), (350 : ℚ)) :: (20000, 330) :: [(40000, 310)])
    ∧ (0 : ℚ) ≤ 10000 ∧ (10000 : ℚ) ≤ 20000
    ∧ interp1 ([] ++ ((0 : ℚ), (350 : ℚ)) :: (20000, 330) :: [(40000, 310)]) 10000
        = some (350 + (330 - 350) * (10000 - 0) / (20000 - 0)) :=
  ⟨by simp only [List.nil_append, List.chain'_cons, List.chain'_singleton,
      fstLT, and_true]; norm_num,
    by norm_num, by norm_num,
    (interp_linear_bracket [] 0 350 20000 330 [(40000, 310)] 10000
      (by simp only [List.nil_append, List.chain'_cons, List.chain'_singleton,
        fstLT, and_true]; norm_num)
      (by norm_num) (by norm_num)).1⟩

unseal Rat.add Rat.sub Rat.mul Rat.inv Rat.ofScientific in
/-- C1 counterexample: in one vectorized v2 call on detent 15 of the test
table set, whose fallback constant for (v2, 15) is 117, the out-of-range
element 95000 kg (95 tonnes, below the 100 tonne first breakpoint) yields a
missing element, not the fallback constant, while the in-range element yields
the interpolated value; the output the claim predicts is not produced. -/
theorem vspeed_elementwise_fallback_cex :
    vspeedLookup testVS VSKind.v2 "15" (MaskedInput.array [some 95000, some 115000])
      = Except.ok (MaskedResult.array [none, some 131])
    ∧ dictGet (testVS.fallback VSKind.v2) "15" = some 117
    ∧ vspeedLookup testVS VSKind.v2 "15" (MaskedInput.array [some 95000, some 115000])
      ≠ Except.ok (MaskedResult.array [some 117, some 131]) :=
  ⟨by decide, by decide, by decide⟩

/-- C1 amended: fallback substitution is not per element.  In a weight-array
query against a detent present in the kind's weight table, with a supported
unit, no minimum speed and a not-entirely-missing weight array, every element
is exactly the interpolated value of its normalised weight: in-range elements
get the interpolation and masked or out-of-range elements stay missing, with
no per-element fallback substitution, whatever the fallback table holds. -/
theorem vspeed_no_elementwise_fallback (cfg : VelocitySpeed) (kind : VSKind)
    (detent : String) (tbl : List (ℚ × ℚ)) (ws : List (Option ℚ))
    (htab : (cfg.tables kind).bind (fun t => dictGet t detent) = some tbl)
    (hunit : unitSupported cfg.weight_unit = true)
    (hms : cfg.minimum_speed = none)
    (hnm : inputFullyMissing (MaskedInput.array ws) = false) :
    vspeedLookup cfg kind detent (MaskedInput.array ws) =
      Except.ok (MaskedResult.array (ws.map (fun w =>
        Option.bind (Option.map (normaliseWeight cfg) w) (interp1 tbl)))) := by
  simp only [vspeedLookup, hunit, Bool.not_true, Bool.and_false,
    Bool.false_eq_true, if_false, htab, hms, hnm, elementsOf, reshape,
    List.map_map, Function.comp_def, optionMap_applyMinimum_none]

unseal Rat.add Rat.sub Rat.mul Rat.inv Rat.ofScientific in
/-- C1 witness: the amended theorem applied to the test v2 table on detent 15
at the array of the counterexample. -/
theorem vspeed_no_elementwise_fallback_witness :
    ((testVS.tables VSKind.v2).bind (fun t => dictGet t "15")
        = some (mkRow [122, 128, 134, 139, 144, 149, 154, 159, 164, 168]))
    ∧ unitSupported testVS.weight_unit = true
    ∧ testVS.minimum_speed = none
    ∧ inputFullyMissing (MaskedInput.array [some 95000, some 115000]) = false
    ∧ vspeedLookup testVS VSKind.v2 "15" (MaskedInput.array [some 95000, some 115000])
        = Except.ok (MaskedResult.array ([some 95000, some 115000].map (fun w =>
            Option.bind (Option.map (normaliseWeight testVS) w)
              (interp1 (mkRow [122, 128, 134, 139, 144, 149, 154, 159, 164, 168]))))) :=
  ⟨by decide, by decide, by decide, by decide,
    vspeed_no_elementwise_fallback testVS VSKind.v2 "15"
      (mkRow [122, 128, 134, 139, 144, 149, 154, 159, 164, 168])
      [some 95000, some 115000] (by decide) (by decide) (by decide) (by decide)⟩

/-- C2: whenever a numeric weight is supplied and the configured weight unit is
outside the supported set, the weight-banded lookup fails with the
unsupported-unit error, for every configuration, detent and kind: the check
precedes every table or fallback consultation, so a fallback constant that
would otherwise resolve the query cannot prevent the error. -/
theorem vspeed_unsupported_unit_eager (cfg : VelocitySpeed) (kind : VSKind)
    (detent : String) (weight : MaskedInput)
    (hnum : hasNumeric weight = true)
    (hunit : unitSupported cfg.weight_unit = false) :
    vspeedLookup cfg kind detent weight = Except.error VSError.unsupportedUnit := by
  simp [vspeedLookup, hnum, hunit]

unseal Rat.add Rat.sub Rat.mul Rat.inv Rat.ofScientific in
/-- C2 witness: the unit error theorem applied to a configuration whose unit
is the unsupported string fortnight, on a detent that has both a table entry
and a fallback constant, with a numeric scalar weight. -/
theorem vspeed_unsupported_unit_eager_witness :
    hasNumeric (MaskedInput.scalar (some 120000)) = true
    ∧ unitSupported badUnitVS.weight_unit = false
    ∧ dictGet (badUnitVS.fallback VSKind.v2) "15" = some 117
    ∧ vspeedLookup badUnitVS VSKind.v2 "15" (MaskedInput.scalar (some 120000))
        = Except.error VSError.unsupportedUnit :=
  ⟨by decide, by decide, by decide,
    vspeed_unsupported_unit_eager badUnitVS VSKind.v2 "15"
      (MaskedInput.scalar (some 120000)) (by decide) (by decide)⟩

unseal Rat.add Rat.sub Rat.mul Rat.inv Rat.ofScientific in
/-- C3 counterexample: on the fixed vmo table of 350 (the table of
test__vmo__fixed), an altitude array with a missing middle element yields the
constant unmasked at every position, including the missing one; the output the
claim predicts, with a missing middle element, is not produced. -/
theorem alt_fixed_missingness_cex :
    fixedAltVS.alt_tables AltKind.vmo = AltTable.fixed 350
    ∧ altLookup fixedAltVS AltKind.vmo (MaskedInput.array [some 0, none, some 20000])
        = MaskedResult.array [some 350, some 350, some 350]
    ∧ altLookup fixedAltVS AltKind.vmo (MaskedInput.array [some 0, none, some 20000])
        ≠ MaskedResult.array [some 350, none, some 350] :=
  ⟨by decide, by decide, by decide⟩

/-- C3 amended: when an altitude-banded table is a fixed numeric constant, the
lookup returns that constant, not marked missing, at every position, whatever
the input's positional missingness: the fixed-constant branch broadcasts the
constant unmasked over the shape the input implies, for scalars and for
arrays. -/
theorem alt_fixed_constant_broadcast (cfg : VelocitySpeed) (kind : AltKind)
    (c : ℚ) (h : cfg.alt_tables kind = AltTable.fixed c) :
    (∀ w : Option ℚ, altLookup cfg kind (MaskedInput.scalar w)
        = MaskedResult.scalar (some c))
    ∧ (∀ xs : List (Option ℚ), altLookup cfg kind (MaskedInput.array xs)
        = MaskedResult.array (List.replicate xs.length (some c))) := by
  refine ⟨fun w => ?_, fun xs => ?_⟩ <;>
    simp [altLookup, h, elementsOf, reshape, List.map_const']

unseal Rat.add Rat.sub Rat.mul Rat.inv Rat.ofScientific in
/-- C3 witness: the fixed-constant broadcast theorem applied to the fixed mmo
test table of 0.850, on an array with a missing middle element. -/
theorem alt_fixed_constant_broadcast_witness :
    fixedAltVS.alt_tables AltKind.mmo = AltTable.fixed (17 / 20)
    ∧ altLookup fixedAltVS AltKind.mmo (MaskedInput.array [some 0, none, some 20000])
        = MaskedResult.array
            (List.replicate ([some (0 : ℚ), none, some 20000]).length (some (17 / 20))) :=
  ⟨by decide,
    (alt_fixed_constant_broadcast fixedAltVS AltKind.mmo (17 / 20)
      (by decide)).2 [some 0, none, some 20000]⟩

/-- C6: when a fallback constant exists for the kind and detent, an entirely
missing weight argument (omitted, a missing scalar, or an all-missing array)
skips interpolation and returns the fallback constant, not marked missing,
broadcast over the shape the input implies: a scalar for omitted or scalar
input, an array of the input's length for an all-missing array. -/
theorem vspeed_fully_missing_fallback (cfg : VelocitySpeed) (kind : VSKind)
    (detent : String) (c : ℚ)
    (hfb : dictGet (cfg.fallback kind) detent = some c)
    (hms : cfg.minimum_speed = none) :
    (vspeedLookup cfg kind detent MaskedInput.omitted
        = Except.ok (MaskedResult.scalar (some c)))
    ∧ (vspeedLookup cfg kind detent (MaskedInput.scalar none)
        = Except.ok (MaskedResult.scalar (some c)))
    ∧ (∀ ws : List (Option ℚ), ws.all Option.isNone = true →
        vspeedLookup cfg kind detent (MaskedInput.array ws)
          = Except.ok (MaskedResult.array (List.replicate ws.length (some c)))) := by
  refine ⟨?_, ?_, fun ws hws => ?_⟩
  · cases hcase : (cfg.tables kind).bind (fun t => dictGet t detent) with
    | some tbl =>
        simp [vspeedLookup, hcase, hfb, hms, elementsOf, reshape, hasNumeric,
          inputFullyMissing, applyMinimum]
    | none =>
        simp [vspeedLookup, hcase, hfb, hms, elementsOf, reshape, hasNumeric,
          applyMinimum]
  · cases hcase : (cfg.tables kind).bind (fun t => dictGet t detent) with
    | some tbl =>
        simp [vspeedLookup, hcase, hfb, hms, elementsOf, reshape, hasNumeric,
          inputFullyMissing, applyMinimum]
    | none =>
        simp [vspeedLookup, hcase, hfb, hms, elementsOf, reshape, hasNumeric,
          applyMinimum]
  · have hnn := hasNumeric_false_of_all_none ws hws
    cases hcase : (cfg.tables kind).bind (fun t => dictGet t detent) with
    | some tbl =>
        simp [vspeedLookup, hcase, hfb, hms, elementsOf, reshape, hnn,
          inputFullyMissing, hws, List.map_const', applyMinimum]
    | none =>
        simp [vspeedLookup, hcase, hfb, hms, elementsOf, reshape, hnn,
          List.map_const', applyMinimum]

unseal Rat.add Rat.sub Rat.mul Rat.inv Rat.ofScientific in
/-- C6 witness: the fully-missing theorem applied to the test table set on
detent 20 of v2 (fallback 113), at an all-missing array of length six. -/
theorem vspeed_fully_missing_fallback_witness :
    dictGet (testVS.fallback VSKind.v2) "20" = some 113
    ∧ testVS.minimum_speed = none
    ∧ (List.replicate 6 (none : Option ℚ)).all Option.isNone = true
    ∧ vspeedLookup testVS VSKind.v2 "20" (MaskedInput.array (List.replicate 6 none))
        = Except.ok (MaskedResult.array
            (List.replicate (List.replicate 6 (none : Option ℚ)).length (some 113))) :=
  ⟨by decide, by decide, by decide,
    (vspeed_fully_missing_fallback testVS VSKind.v2 "20" 113
      (by decide) (by decide)).2.2 (List.replicate 6 none) (by decide)⟩

/-- C7: when neither a weight-table entry nor a fallback constant exists for
the kind and detent, the lookup result is missing at every position for every
weight argument, shaped like the input: a missing scalar for omitted or scalar
input, a fully missing array of the input's length for array input. -/
theorem vspeed_total_absence_missing (cfg : VelocitySpeed) (kind : VSKind)
    (detent : String)
    (htab : (cfg.tables kind).bind (fun t => dictGet t detent) = none)
    (hfb : dictGet (cfg.fallback kind) detent = none)
    (hunit : unitSupported cfg.weight_unit = true) :
    (vspeedLookup cfg kind detent MaskedInput.omitted
        = Except.ok (MaskedResult.scalar none))
    ∧ (∀ w : Option ℚ, vspeedLookup cfg kind detent (MaskedInput.scalar w)
        = Except.ok (MaskedResult.scalar none))
    ∧ (∀ ws : List (Option ℚ), vspeedLookup cfg kind detent (MaskedInput.array ws)
        = Except.ok (MaskedResult.array (List.replicate ws.length none))) := by
  refine ⟨?_, fun w => ?_, fun ws => ?_⟩ <;>
    simp [vspeedLookup, htab, hfb, hunit, elementsOf, reshape, List.map_map,
      Function.comp_def, List.map_const']

unseal Rat.add Rat.sub Rat.mul Rat.inv Rat.ofScientific in
/-- C7 witness: the total-absence theorem applied to the test table set on
detent 99, which neither the v2 table nor the v2 fallback defines, with a
partially missing weight array. -/
theorem vspeed_total_absence_missing_witness :
    (testVS.tables VSKind.v2).bind (fun t => dictGet t "99") = none
    ∧ dictGet (testVS.fallback VSKind.v2) "99" = none
    ∧ unitSupported testVS.weight_unit = true
    ∧ vspeedLookup testVS VSKind.v2 "99" (MaskedInput.array [some 120000, none])
        = Except.ok (MaskedResult.array
            (List.replicate ([some (120000 : ℚ), none]).length none)) :=
  ⟨by decide, by decide, by decide,
    (vspeed_total_absence_missing testVS VSKind.v2 "99"
      (by decide) (by decide) (by decide)).2.2 [some 120000, none]⟩

/-- C8: with a configured minimum speed m, every weight-banded lookup result
equals the result of the same lookup without a minimum speed with max(value,m)
applied elementwise to each non-missing element, after lookup and fallback;
and altitude-banded lookups ignore the minimum speed entirely. -/
theorem vspeed_minimum_speed_floor (cfg : VelocitySpeed) (m : ℚ)
    (hms : cfg.minimum_speed = some m) (kind : VSKind) (detent : String)
    (w : MaskedInput) (ak : AltKind) (alt : MaskedInput) :
    vspeedLookup cfg kind detent w
      = Except.map (MaskedResult.emap (fun y => max y m))
          (vspeedLookup { cfg with minimum_speed := none } kind detent w)
    ∧ altLookup cfg ak alt = altLookup { cfg with minimum_speed := none } ak alt := by
  obtain ⟨wu, wsc, ms, tb, fb, atb⟩ := cfg
  simp only at hms
  subst hms
  constructor
  · by_cases hc : (hasNumeric w && !(unitSupported wu)) = true
    · simp [vspeedLookup, hc, Except.map]
    · simp only [vspeedLookup, hc, Bool.false_eq_true, if_false, Except.map,
        listMap_applyMinimum_none, emap_reshape]
      rfl
  · rfl

unseal Rat.add Rat.sub Rat.mul Rat.inv Rat.ofScientific in
/-- C8 witness: the floor theorem applied to the minimum-speed test
configuration (floor 125) on v2 detent 15 with a scalar weight, together with
an altitude query. -/
theorem vspeed_minimum_speed_floor_witness :
    minSpeedVS.minimum_speed = some 125
    ∧ vspeedLookup minSpeedVS VSKind.v2 "15" (MaskedInput.scalar (some 100500))
        = Except.map (MaskedResult.emap (fun y => max y 125))
            (vspeedLookup { minSpeedVS with minimum_speed := none } VSKind.v2 "15"
              (MaskedInput.scalar (some 100500))) :=
  ⟨by decide,
    (vspeed_minimum_speed_floor minSpeedVS 125 (by decide) VSKind.v2 "15"
      (MaskedInput.scalar (some 100500)) AltKind.vmo MaskedInput.omitted).1⟩

unseal Rat.add Rat.sub Rat.mul Rat.inv Rat.ofScientific in
/-- C9: with a supported configured unit u of f kilograms and scale s, a
scalar lookup of weight w equals the lookup of the same table set, re-declared
in kilograms at scale one, queried directly at the normalised weight
w' = convert(w, kg, u) / s = w / f / s; and the tonnes-authored test table
queried through pounds at scale 1000 reproduces the tonnes result within
a hundredth of a knot. -/
theorem vspeed_unit_scale_normalisation (cfg : VelocitySpeed) (kind : VSKind)
    (detent : String) (w f : ℚ) (u : String)
    (hu : cfg.weight_unit = some u) (hf : unitInKg u = some f) :
    vspeedLookup cfg kind detent (MaskedInput.scalar (some w))
      = vspeedLookup { cfg with weight_unit := some UNIT_KG, weight_scale := 1 }
          kind detent (MaskedInput.scalar (some (w / f / cfg.weight_scale)))
    ∧ closeScalars (vspeedLookup lbVS VSKind.v2 "15" (MaskedInput.scalar (some 52163)))
        (vspeedLookup testVS VSKind.v2 "15" (MaskedInput.scalar (some 115000)))
        (1 / 100) = true := by
  constructor
  · obtain ⟨wu, wsc, ms, tb, fb, atb⟩ := cfg
    simp only at hu
    subst hu
    have hnorm : normaliseWeight ⟨some u, wsc, ms, tb, fb, atb⟩ w
        = normaliseWeight ⟨some UNIT_KG, 1, ms, tb, fb, atb⟩ (w / f / wsc) := by
      simp only [normaliseWeight, convert, unitInKg_kg, hf]
      ring
    simp only [vspeedLookup, unitSupported, unitInKg_kg, hf, hasNumeric,
      Option.isSome_some, Bool.not_true, Bool.and_false, Bool.false_eq_true,
      if_false, elementsOf, inputFullyMissing, Option.isNone_some, List.map,
      Option.map_some', reshape, hnorm]
  · decide

unseal Rat.add Rat.sub Rat.mul Rat.inv Rat.ofScientific in
/-- C9 witness: the normalisation theorem applied to the pounds-at-scale-1000
test configuration on v2 detent 20 at 54431 kilograms. -/
theorem vspeed_unit_scale_normalisation_witness :
    lbVS.weight_unit = some UNIT_LB
    ∧ unitInKg UNIT_LB = some (45359237 / 100000000)
    ∧ vspeedLookup lbVS VSKind.v2 "20" (MaskedInput.scalar (some 54431))
        = vspeedLookup { lbVS with weight_unit := some UNIT_KG, weight_scale := 1 }
            VSKind.v2 "20"
            (MaskedInput.scalar
              (some (54431 / (45359237 / 100000000) / lbVS.weight_scale))) :=
  ⟨by decide, by decide,
    (vspeed_unit_scale_normalisation lbVS VSKind.v2 "20" 54431
      (45359237 / 100000000) UNIT_LB (by decide) (by decide)).1⟩

/-- C10: normalise_discrete_mapping reports inverted exactly when, after the
STATE_CORRECTIONS substitution, the state mapped from one lies in FALSE_STATES
or the state mapped from zero lies in TRUE_STATES; the flag is computed from
the original mapping's states alone and is identical for every parameter name,
including names whose correction replaces the returned mapping. -/
theorem normalise_discrete_mapping_inverted (m : DiscreteMapping)
    (p q : Option String) :
    (normalise_discrete_mapping m p).2
      = (optMem (stateCorrectionsGet m.state1) FALSE_STATES
          || optMem (stateCorrectionsGet m.state0) TRUE_STATES)
    ∧ (normalise_discrete_mapping m p).2 = (normalise_discrete_mapping m q).2 :=
  ⟨rfl, rfl⟩

end FDUtil
